import Mathlib

/-!
Shallow embedding of the OATH credential session logic of
`src/ykman/cli/oath.py` (yubikey-manager): the search/match algorithm
(`_search`), the session unlock (`_init_session` / `_validate`), the
code-resolution decision for a single matched credential (`code`), the
credential-admission validation (`_add_cred`), and the delete operation
(`delete`).  Python strings are modelled as `String`, byte strings of
credential payloads as `List Nat`, firmware version triples as
`Nat × Nat × Nat` with lexicographic comparison (Python tuple order).
-/

namespace Ykman

/-- Firmware version triple `(major, minor, patch)`. -/
def Version := Nat × Nat × Nat

/-- Lexicographic strict order on version triples, as Python compares tuples. -/
def verLt (a b : Version) : Bool :=
  if a.1 ≠ b.1 then decide (a.1 < b.1)
  else if a.2.1 ≠ b.2.1 then decide (a.2.1 < b.2.1)
  else decide (a.2.2 < b.2.2)

/-- `OATH_TYPE` from `yubikit.oath`. -/
inductive OATH_TYPE
  | HOTP
  | TOTP
  deriving DecidableEq, Repr

/-- `HASH_ALGORITHM` from `yubikit.oath`. -/
inductive HASH_ALGORITHM
  | SHA1
  | SHA256
  | SHA512
  deriving DecidableEq, Repr

/-- A credential as returned by `session.list_credentials()` /
`session.calculate_all()`.  The byte identifier is modelled as a `String`
(the CLI decodes it as UTF-8 in `_string_id`); `hidden` models the result
of `is_hidden` from `ykman.oath`.  Modelled from the spec: `is_hidden` is
not under `src/`; the spec says a credential is hidden by a naming
convention external to the spec, so it is modelled as a Boolean flag. -/
structure Credential where
  id : String
  oath_type : OATH_TYPE
  touch_required : Bool
  hidden : Bool
  deriving DecidableEq, Repr

/-- `_string_id(credential)`: the display identifier (UTF-8 decode of the id). -/
def _string_id (credential : Credential) : String :=
  credential.id

/-- `is_hidden` from `ykman.oath`.  Modelled from the spec: the naming
convention is external, so the flag on the credential is read directly. -/
def is_hidden (c : Credential) : Bool :=
  c.hidden

/-- Lower-cased character list of a string (Python `str.lower()`). -/
def lowerList (s : String) : List Char :=
  s.toList.map Char.toLower

/-- Python `query.lower() in cred_id.lower()`: case-insensitive substring. -/
def containsCI (cred_id query : String) : Bool :=
  decide (lowerList query <:+: lowerList cred_id)

/-- The loop body of `_search`: walks `creds` carrying the `hits`
accumulator.  A hidden credential is skipped (unless `show_hidden`) before
any comparison; an exact display-identifier match returns immediately as a
singleton; otherwise case-insensitive substring matches are accumulated. -/
def searchLoop (query : String) (show_hidden : Bool) :
    List Credential → List Credential → List Credential
  | [], hits => hits
  | c :: rest, hits =>
    if !show_hidden && is_hidden c then
      searchLoop query show_hidden rest hits
    else if _string_id c = query then
      [c]
    else if containsCI (_string_id c) query then
      searchLoop query show_hidden rest (hits ++ [c])
    else
      searchLoop query show_hidden rest hits

/-- `_search(creds, query, show_hidden)` from `src/ykman/cli/oath.py`. -/
def _search (creds : List Credential) (query : String) (show_hidden : Bool) :
    List Credential :=
  searchLoop query show_hidden creds []

/-- If no credential's display id equals the query, the loop appends
exactly the case-insensitive substring matches to the accumulator
(`show_hidden = true` case). -/
theorem searchLoop_no_exact (query : String) (creds : List Credential)
    (hnx : ∀ c ∈ creds, _string_id c ≠ query) (hits : List Credential) :
    searchLoop query true creds hits =
      hits ++ creds.filter (fun c => containsCI (_string_id c) query) := by
  induction creds generalizing hits with
  | nil => simp [searchLoop]
  | cons c rest ih =>
    have hc : _string_id c ≠ query := hnx c (by simp)
    have hrest : ∀ x ∈ rest, _string_id x ≠ query := by
      intro x hx
      exact hnx x (by simp [hx])
    by_cases hsub : containsCI (_string_id c) query = true
    · simp [searchLoop, is_hidden, hc, hsub, ih hrest, List.filter_cons]
    · simp [searchLoop, is_hidden, hc, hsub, ih hrest, List.filter_cons]

/-- If `c` is in `creds`, its display id equals the query, and it is the
only such credential, the loop returns exactly `[c]` whatever the
accumulator holds (`show_hidden = true` case). -/
theorem searchLoop_exact (query : String) (creds : List Credential)
    (c : Credential) (hmem : c ∈ creds) (heq : _string_id c = query)
    (huniq : ∀ x ∈ creds, _string_id x = query → x = c)
    (hits : List Credential) :
    searchLoop query true creds hits = [c] := by
  induction creds generalizing hits with
  | nil => cases hmem
  | cons d rest ih =>
    by_cases hd : _string_id d = query
    · have hdc : d = c := huniq d (by simp) hd
      subst hdc
      simp [searchLoop, is_hidden, hd]
    · have hmem' : c ∈ rest := by
        rcases List.mem_cons.mp hmem with h | h
        · exact absurd (h ▸ heq) hd
        · exact h
      have huniq' : ∀ x ∈ rest, _string_id x = query → x = c := by
        intro x hx hxq
        exact huniq x (by simp [hx]) hxq
      by_cases hsub : containsCI (_string_id d) query = true
      · simp [searchLoop, is_hidden, hd, hsub, ih hmem' huniq']
      · simp [searchLoop, is_hidden, hd, hsub, ih hmem' huniq']

/-- With `show_hidden = false`, every credential the loop returns is not
hidden, provided the accumulator held only non-hidden credentials. -/
theorem searchLoop_not_hidden (query : String) (creds : List Credential)
    (hits : List Credential) (hacc : ∀ x ∈ hits, is_hidden x = false) :
    ∀ c ∈ searchLoop query false creds hits, is_hidden c = false := by
  induction creds generalizing hits with
  | nil => simpa [searchLoop] using hacc
  | cons d rest ih =>
    by_cases hh : is_hidden d = true
    · simpa [searchLoop, hh] using ih hits hacc
    · have hd : is_hidden d = false := by
        cases h : is_hidden d
        · rfl
        · exact absurd h hh
      by_cases hq : _string_id d = query
      · intro c hc
        simp [searchLoop, hh, hq] at hc
        simpa [hc] using hd
      · by_cases hsub : containsCI (_string_id d) query = true
        · have hacc' : ∀ x ∈ hits ++ [d], is_hidden x = false := by
            intro x hx
            rcases List.mem_append.mp hx with h | h
            · exact hacc x h
            · simp at h
              simpa [h] using hd
          simpa [searchLoop, hh, hq, hsub] using ih (hits ++ [d]) hacc'
        · simpa [searchLoop, hh, hq, hsub] using ih hits hacc

/-- The empty query is a case-insensitive substring of every identifier. -/
theorem containsCI_empty (s : String) : containsCI s "" = true := by
  apply decide_eq_true
  exact ⟨[], lowerList s, rfl⟩

/-- Claim C2: `_search` with `show_hidden = true` returns exactly the single
credential whose display identifier equals the query case-sensitively when
such a credential exists (regardless of other substring matches); otherwise
it returns exactly the credentials whose display identifier contains the
query as a case-insensitive substring, in encounter order; and an empty
query matches every credential. -/
theorem search_exact_else_substring (creds : List Credential) (query : String) :
    (∀ c ∈ creds, _string_id c = query →
      (∀ x ∈ creds, _string_id x = query → x = c) →
      _search creds query true = [c]) ∧
    ((∀ c ∈ creds, _string_id c ≠ query) →
      _search creds query true =
        creds.filter (fun c => containsCI (_string_id c) query)) ∧
    ((∀ c ∈ creds, _string_id c ≠ "") → _search creds "" true = creds) := by
  refine ⟨?_, ?_, ?_⟩
  · intro c hmem heq huniq
    exact searchLoop_exact query creds c hmem heq huniq []
  · intro hnx
    simpa using searchLoop_no_exact query creds hnx []
  · intro hnx
    have h := searchLoop_no_exact "" creds hnx []
    simp only [_search, h, List.nil_append]
    apply List.filter_eq_self.mpr
    intro a _
    exact containsCI_empty (_string_id a)

/-- Witness for C2 at concrete inputs: an exact match wins over the
substring match "GH" inside "GHub:x"; without an exact match the
case-insensitive substring matches are returned in order; the empty query
matches everything. -/
theorem search_exact_else_substring_witness :
    _search [⟨"GHub:x", OATH_TYPE.TOTP, false, false⟩,
             ⟨"GH", OATH_TYPE.TOTP, false, false⟩] "GH" true =
      [⟨"GH", OATH_TYPE.TOTP, false, false⟩] ∧
    _search [⟨"GHub:x", OATH_TYPE.TOTP, false, false⟩,
             ⟨"amazon", OATH_TYPE.TOTP, false, false⟩] "h" true =
      [⟨"GHub:x", OATH_TYPE.TOTP, false, false⟩] ∧
    _search [⟨"GHub:x", OATH_TYPE.TOTP, false, false⟩,
             ⟨"amazon", OATH_TYPE.TOTP, false, false⟩] "" true =
      [⟨"GHub:x", OATH_TYPE.TOTP, false, false⟩,
       ⟨"amazon", OATH_TYPE.TOTP, false, false⟩] := by
  refine ⟨?_, ?_, ?_⟩
  · exact (search_exact_else_substring _ "GH").1
      ⟨"GH", OATH_TYPE.TOTP, false, false⟩ (by decide) (by decide) (by decide)
  · exact ((search_exact_else_substring _ "h").2.1 (by decide)).trans (by decide)
  · exact (search_exact_else_substring _ "h").2.2 (by decide)

/-- Claim C3: `_search` with `show_hidden = false` never returns a hidden
credential, even one whose display identifier equals the query exactly:
the hidden filter runs before the exact-match short-circuit. -/
theorem search_excludes_hidden (creds : List Credential) (query : String) :
    (∀ c ∈ _search creds query false, is_hidden c = false) ∧
    (∀ c ∈ creds, is_hidden c = true → _string_id c = query →
      c ∉ _search creds query false) := by
  have h1 : ∀ c ∈ _search creds query false, is_hidden c = false :=
    searchLoop_not_hidden query creds [] (by intro x hx; cases hx)
  refine ⟨h1, ?_⟩
  intro c _ hh _ hmem
  have := h1 c hmem
  rw [this] at hh
  cases hh

/-- Witness for C3 at concrete inputs: a hidden credential exactly matching
the query is excluded, and a search result credential is not hidden. -/
theorem search_excludes_hidden_witness :
    (⟨"secret", OATH_TYPE.TOTP, false, true⟩ : Credential) ∉
      _search [⟨"secret", OATH_TYPE.TOTP, false, true⟩,
               ⟨"open", OATH_TYPE.TOTP, false, false⟩] "secret" false ∧
    is_hidden (⟨"open", OATH_TYPE.TOTP, false, false⟩ : Credential) = false := by
  constructor
  · exact (search_excludes_hidden _ "secret").2
      ⟨"secret", OATH_TYPE.TOTP, false, true⟩ (by decide) (by decide) (by decide)
  · exact (search_excludes_hidden
      [⟨"open", OATH_TYPE.TOTP, false, false⟩] "open").1
      ⟨"open", OATH_TYPE.TOTP, false, false⟩ (by decide)

/-! ## Session unlock (`_init_session` / `_validate`) -/

/-- Failure cause of `session.validate(key)`: a wrong key, or a transport
failure of the call itself.  The CLI catches every exception alike. -/
inductive ValidateError
  | wrongKey
  | transportError
  deriving DecidableEq, Repr

/-- Errors surfaced by the unlock path (`ctx.fail` messages). -/
inductive AuthError
  | UnexpectedPassword
  | AuthenticationFailed
  deriving DecidableEq, Repr

/-- Observable side actions of the unlock path, in order of occurrence. -/
inductive AuthEvent
  | promptedUser
  | derivedKey
  | validated
  | cacheWrite
  deriving DecidableEq, Repr

/-- The remembered-passwords map `settings["keys"]` (device id to key). -/
abbrev KeyCache := List (String × String)

/-- Dictionary lookup `keys[device_id]` (presence via `device_id in keys`). -/
def cacheGet (keys : KeyCache) (device_id : String) : Option String :=
  (keys.find? (fun p => p.1 == device_id)).map (fun p => p.2)

/-- Dictionary assignment `keys[device_id] = key`. -/
def cacheSet (keys : KeyCache) (device_id key : String) : KeyCache :=
  if (keys.find? (fun p => p.1 == device_id)).isSome then
    keys.map (fun p => if p.1 == device_id then (device_id, key) else p)
  else
    keys ++ [(device_id, key)]

/-- The OATH session facade: lock state, stable device id, firmware
version, key derivation, key validation, FIPS mode and stored credentials.
`derive_key` and `validate` model `session.derive_key` / `session.validate`;
`fips` models `is_fips_version(version)` from `ykman.device`.  Modelled
from the spec: `is_fips_version` is not under `src/`; the spec's check only
needs "device is a restricted/FIPS-mode device", kept as a flag. -/
structure OathSession where
  locked : Bool
  device_id : String
  version : Version
  derive_key : String → String
  validate : String → Except ValidateError Unit
  fips : Bool
  creds : List Credential

/-- `_validate(ctx, key, remember)`: validate the key against the session;
on success optionally remember it (write-through to settings); any
exception becomes the single authentication failure. -/
def _validate (session : OathSession) (keys : KeyCache) (key : String)
    (remember : Bool) : Except AuthError (KeyCache × List AuthEvent) :=
  match session.validate key with
  | Except.ok _ =>
    if remember then
      Except.ok (cacheSet keys session.device_id key,
        [AuthEvent.validated, AuthEvent.cacheWrite])
    else
      Except.ok (keys, [AuthEvent.validated])
  | Except.error _ => Except.error AuthError.AuthenticationFailed

/-- Python truthiness of the optional `password` argument (`if password:`). -/
def pwTruthy : Option String → Bool
  | none => false
  | some s => !(s == "")

/-- `_init_session(ctx, password, remember)`: unlock a locked session with
the supplied password, a cached key, or an interactively prompted password
(`prompted` models the `click_prompt` result); on an unlocked session a
truthy password argument is an error. -/
def _init_session (session : OathSession) (keys : KeyCache)
    (password : Option String) (remember : Bool) (prompted : String) :
    Except AuthError (KeyCache × List AuthEvent) :=
  if session.locked then
    let kd : String × List AuthEvent :=
      if pwTruthy password then
        (session.derive_key (password.getD ""), [AuthEvent.derivedKey])
      else
        match cacheGet keys session.device_id with
        | some k => (k, [])
        | none =>
          (session.derive_key prompted,
            [AuthEvent.promptedUser, AuthEvent.derivedKey])
    match _validate session keys kd.1 remember with
    | Except.ok (keys2, evs) => Except.ok (keys2, kd.2 ++ evs)
    | Except.error e => Except.error e
  else if pwTruthy password then
    Except.error AuthError.UnexpectedPassword
  else
    Except.ok (keys, [])

/-- Claim C5: on an unlocked session, a non-empty supplied password fails
with `UnexpectedPassword`, and no supplied password succeeds trivially —
the key cache is returned unchanged and no derive, validate, prompt or
cache-write event occurs. -/
theorem init_session_unlocked (session : OathSession) (keys : KeyCache)
    (p : String) (remember : Bool) (prompted : String)
    (hl : session.locked = false) :
    (p ≠ "" → _init_session session keys (some p) remember prompted =
      Except.error AuthError.UnexpectedPassword) ∧
    _init_session session keys none remember prompted =
      Except.ok (keys, []) := by
  constructor
  · intro hp
    simp [_init_session, pwTruthy, hl, hp]
  · simp [_init_session, pwTruthy, hl]

/-- A sample unlocked session used to witness C5. -/
def sampleUnlocked : OathSession where
  locked := false
  device_id := "dev0"
  version := (5, 0, 0)
  derive_key := fun p => p ++ "#k"
  validate := fun _ => Except.ok ()
  fips := false
  creds := []

/-- Witness for C5 at a concrete unlocked session. -/
theorem init_session_unlocked_witness :
    _init_session sampleUnlocked [] (some "pw") false "x" =
      Except.error AuthError.UnexpectedPassword ∧
    _init_session sampleUnlocked [] none false "x" = Except.ok ([], []) :=
  ⟨(init_session_unlocked sampleUnlocked [] "pw" false "x" rfl).1
      (by decide),
   (init_session_unlocked sampleUnlocked [] "pw" false "x" rfl).2⟩

/-- Claim C6: on a locked session, every failure of the key-validation
step — wrong key or transport failure alike — surfaces as the single error
`AuthenticationFailed`, so no two failure causes are distinguishable in
the result. -/
theorem validate_collapses_failures (session : OathSession) (keys : KeyCache)
    (key : String) (remember : Bool) (hl : session.locked = true) :
    (∀ e, session.validate key = Except.error e →
      _validate session keys key remember =
        Except.error AuthError.AuthenticationFailed) ∧
    (∀ e₁ e₂ (session2 : OathSession) (keys2 : KeyCache) (key2 : String)
        (remember2 : Bool),
      session.validate key = Except.error e₁ →
      session2.validate key2 = Except.error e₂ →
      _validate session keys key remember =
        _validate session2 keys2 key2 remember2) := by
  constructor
  · intro e he
    simp [_validate, he]
  · intro e₁ e₂ session2 keys2 key2 remember2 h1 h2
    simp [_validate, h1, h2]

/-- A sample locked session whose validation reports a wrong key. -/
def sampleLockedWrong : OathSession where
  locked := true
  device_id := "dev1"
  version := (5, 0, 0)
  derive_key := fun p => p ++ "#k"
  validate := fun _ => Except.error ValidateError.wrongKey
  fips := false
  creds := []

/-- A sample locked session whose validation fails in transport. -/
def sampleLockedTransport : OathSession where
  locked := true
  device_id := "dev1"
  version := (5, 0, 0)
  derive_key := fun p => p ++ "#k"
  validate := fun _ => Except.error ValidateError.transportError
  fips := false
  creds := []

/-- Witness for C6: a wrong key and a transport failure produce the same
`AuthenticationFailed` result. -/
theorem validate_collapses_failures_witness :
    _validate sampleLockedWrong [] "k" false =
      Except.error AuthError.AuthenticationFailed ∧
    _validate sampleLockedWrong [] "k" false =
      _validate sampleLockedTransport [] "k" false :=
  ⟨(validate_collapses_failures sampleLockedWrong [] "k" false rfl).1
      ValidateError.wrongKey rfl,
   (validate_collapses_failures sampleLockedWrong [] "k" false rfl).2
      ValidateError.wrongKey ValidateError.transportError
      sampleLockedTransport [] "k" false rfl rfl⟩

/-! ## Code resolution for a single matched credential (`code` command) -/

/-- A computed OATH code (only its displayed value is modelled). -/
structure Code where
  value : String
  deriving DecidableEq, Repr

/-- The recompute-or-reuse decision of the `code` command for a single
matched credential: `precomputed` is the batch value `entries[cred]` from
`calculate_all` (possibly null), `calcResult` is what
`session.calculate_code(cred)` would return.  Returns the final code and
whether the store recomputation was invoked. -/
def resolveCode (calcResult : Code) (cred : Credential)
    (precomputed : Option Code) : Code × Bool :=
  if cred.oath_type = OATH_TYPE.HOTP then
    (calcResult, true)
  else
    match precomputed with
    | none => (calcResult, true)
    | some c => (c, false)

/-- Claim C4: an HOTP credential is always recomputed via the store and the
batch-provided value is never used, even when present; a TOTP credential
with a non-null batch value reuses it without recomputation. -/
theorem resolve_hotp_recomputes (calcResult : Code) (cred : Credential)
    (precomputed : Option Code) :
    (cred.oath_type = OATH_TYPE.HOTP →
      resolveCode calcResult cred precomputed = (calcResult, true)) ∧
    (cred.oath_type = OATH_TYPE.TOTP → ∀ v, precomputed = some v →
      resolveCode calcResult cred precomputed = (v, false)) := by
  constructor
  · intro h
    simp [resolveCode, h]
  · intro h v hv
    simp [resolveCode, h, hv]

/-- Witness for C4: with a stale batch value present, HOTP returns the
fresh store value; TOTP returns the batch value without recomputing. -/
theorem resolve_hotp_recomputes_witness :
    resolveCode ⟨"222222"⟩ ⟨"h", OATH_TYPE.HOTP, false, false⟩
      (some ⟨"111111"⟩) = (⟨"222222"⟩, true) ∧
    resolveCode ⟨"222222"⟩ ⟨"t", OATH_TYPE.TOTP, false, false⟩
      (some ⟨"111111"⟩) = (⟨"111111"⟩, false) :=
  ⟨(resolve_hotp_recomputes ⟨"222222"⟩ ⟨"h", OATH_TYPE.HOTP, false, false⟩
      (some ⟨"111111"⟩)).1 rfl,
   (resolve_hotp_recomputes ⟨"222222"⟩ ⟨"t", OATH_TYPE.TOTP, false, false⟩
      (some ⟨"111111"⟩)).2 rfl ⟨"111111"⟩ rfl⟩

/-! ## Credential admission (`_add_cred`) -/

/-- Candidate credential data (`CredentialData` from `yubikit.oath`).
`name` and `secret` are byte strings (the spec measures both in bytes);
`cred_id` models `data.get_id()` — modelled from the spec: the id is
derived deterministically by the store from (issuer, name, oath_type),
which is not under `src/`, so it is carried as a field.  `hidden` models
whether the resulting stored credential falls under the hidden naming
convention.  `digits` and `period` are not consulted by the validation
logic and are omitted. -/
structure CredentialData where
  name : List Nat
  oath_type : OATH_TYPE
  hash_algorithm : HASH_ALGORITHM
  secret : List Nat
  counter : Nat
  cred_id : String
  hidden : Bool
  deriving DecidableEq, Repr

/-- Device response to `session.put_credential`. -/
inductive PutOutcome
  | success
  | noSpace
  | commandAborted
  | otherError
  deriving DecidableEq, Repr

/-- The distinct failure exits of `_add_cred`, one per `ctx.fail` call
(`StorageFullAborted` is the `COMMAND_ABORTED` alias of `StorageFull`
emitted by some older devices; `UnhandledApduError` models the re-raise
of any other APDU error). -/
inductive AdmitError
  | InvalidName
  | SecretTooShort
  | UnsupportedTouch
  | CounterNotApplicable
  | UnsupportedAlgorithm
  | Aborted
  | UnsafeOverwriteName
  | StorageFull
  | StorageFullAborted
  | UnhandledApduError
  deriving DecidableEq, Repr

/-- The stored credential resulting from admitting `data` with `touch`. -/
def mkCred (data : CredentialData) (touch : Bool) : Credential :=
  ⟨data.cred_id, data.oath_type, touch, data.hidden⟩

/-- `session.put_credential(data, touch)` on success: an existing
credential with the same id is overwritten (the spec: an overwrite is
delete+add with the same id). -/
def putCredential (creds : List Credential) (data : CredentialData)
    (touch : Bool) : List Credential :=
  creds.filter (fun c => c.id != data.cred_id) ++ [mkCred data touch]

/-- `(4, 0, 0) < version < (4, 3, 5)` — the known-defect firmware window. -/
def firmwareOverwriteIssue (version : Version) : Bool :=
  verLt (4, 0, 0) version && verLt version (4, 3, 5)

/-- Python `s.startswith(pre)` on the identifier byte strings, modelled
structurally over the character lists. -/
def strStartsWith (s pre : String) : Bool :=
  pre.toList.isPrefixOf s.toList

/-- `any(cred.id.startswith(cred_id) and cred.id != cred_id for cred in
creds)`: some existing id strictly extends the candidate id. -/
def credIsSubset (creds : List Credential) (cred_id : String) : Bool :=
  creds.any (fun cred => strStartsWith cred.id cred_id && cred.id != cred_id)

/-- `any(cred.id == cred_id for cred in creds)`: the overwrite test. -/
def sameIdExists (creds : List Credential) (cred_id : String) : Bool :=
  creds.any (fun cred => cred.id == cred_id)

/-- The tail of `_add_cred` after the overwrite-confirmation step: the
defect-window guard followed by the `put_credential` submission with its
`ApduError` normalization. -/
def addCredSubmit (session : OathSession) (data : CredentialData)
    (touch : Bool) (putOutcome : PutOutcome) :
    Except AdmitError Unit × List Credential :=
  if firmwareOverwriteIssue session.version &&
      credIsSubset session.creds data.cred_id then
    (Except.error AdmitError.UnsafeOverwriteName, session.creds)
  else
    match putOutcome with
    | PutOutcome.success =>
      (Except.ok (), putCredential session.creds data touch)
    | PutOutcome.noSpace => (Except.error AdmitError.StorageFull, session.creds)
    | PutOutcome.commandAborted =>
      (Except.error AdmitError.StorageFullAborted, session.creds)
    | PutOutcome.otherError =>
      (Except.error AdmitError.UnhandledApduError, session.creds)

/-- `_add_cred(ctx, data, touch, force)` from `src/ykman/cli/oath.py`.
`confirmOverwrite` models the interactive `click.confirm` answer and
`putOutcome` the device response to `put_credential`.  Returns the
operation result together with the resulting stored-credential list. -/
def _add_cred (session : OathSession) (data : CredentialData)
    (touch force confirmOverwrite : Bool) (putOutcome : PutOutcome) :
    Except AdmitError Unit × List Credential :=
  if ¬ (0 < data.name.length ∧ data.name.length ≤ 64) then
    (Except.error AdmitError.InvalidName, session.creds)
  else if data.secret.length < 2 then
    (Except.error AdmitError.SecretTooShort, session.creds)
  else if touch && verLt session.version (4, 2, 6) then
    (Except.error AdmitError.UnsupportedTouch, session.creds)
  else if data.counter ≠ 0 ∧ data.oath_type ≠ OATH_TYPE.HOTP then
    (Except.error AdmitError.CounterNotApplicable, session.creds)
  else if data.hash_algorithm = HASH_ALGORITHM.SHA512 ∧
      (verLt session.version (4, 3, 1) = true ∨ session.fips = true) then
    (Except.error AdmitError.UnsupportedAlgorithm, session.creds)
  else if !force && sameIdExists session.creds data.cred_id then
    if confirmOverwrite then addCredSubmit session data touch putOutcome
    else (Except.error AdmitError.Aborted, session.creds)
  else addCredSubmit session data touch putOutcome

/-- Modelled from the spec: `validate_and_admit` written as the spec's
section 4.4 lists it — eight checks in the spec's order, first failure
wins, the stored credentials untouched on every failure.  This definition
follows the spec's words and exists only to be compared against the
source-derived `_add_cred`. -/
def validate_and_admit_spec (session : OathSession) (data : CredentialData)
    (touch force confirmOverwrite : Bool) (putOutcome : PutOutcome) :
    Except AdmitError Unit × List Credential :=
  if ¬ (0 < data.name.length ∧ data.name.length ≤ 64) then
    (Except.error AdmitError.InvalidName, session.creds)
  else if data.secret.length < 2 then
    (Except.error AdmitError.SecretTooShort, session.creds)
  else if touch && verLt session.version (4, 2, 6) then
    (Except.error AdmitError.UnsupportedTouch, session.creds)
  else if data.counter ≠ 0 ∧ data.oath_type ≠ OATH_TYPE.HOTP then
    (Except.error AdmitError.CounterNotApplicable, session.creds)
  else if data.hash_algorithm = HASH_ALGORITHM.SHA512 ∧
      (verLt session.version (4, 3, 1) = true ∨ session.fips = true) then
    (Except.error AdmitError.UnsupportedAlgorithm, session.creds)
  else if sameIdExists session.creds data.cred_id && !force &&
      !confirmOverwrite then
    (Except.error AdmitError.Aborted, session.creds)
  else if firmwareOverwriteIssue session.version &&
      credIsSubset session.creds data.cred_id then
    (Except.error AdmitError.UnsafeOverwriteName, session.creds)
  else
    match putOutcome with
    | PutOutcome.success =>
      (Except.ok (), putCredential session.creds data touch)
    | PutOutcome.noSpace => (Except.error AdmitError.StorageFull, session.creds)
    | PutOutcome.commandAborted =>
      (Except.error AdmitError.StorageFullAborted, session.creds)
    | PutOutcome.otherError =>
      (Except.error AdmitError.UnhandledApduError, session.creds)

/-- `true` iff a failing `_add_cred` leaves the stored credentials as they
were. -/
def noMutationOnFailure (session : OathSession) (data : CredentialData)
    (touch force confirmOverwrite : Bool) (putOutcome : PutOutcome) : Bool :=
  match _add_cred session data touch force confirmOverwrite putOutcome with
  | (Except.ok _, _) => true
  | (Except.error _, creds2) => decide (creds2 = session.creds)

/-- On every exit, `_add_cred` either returns the unchanged credential
list or succeeds. -/
theorem add_cred_error_creds (session : OathSession) (data : CredentialData)
    (touch force confirmOverwrite : Bool) (putOutcome : PutOutcome) :
    (_add_cred session data touch force confirmOverwrite putOutcome).2 =
      session.creds ∨
    (_add_cred session data touch force confirmOverwrite putOutcome).1 =
      Except.ok () := by
  unfold _add_cred addCredSubmit
  repeat' split
  all_goals simp

/-- Claim C8: `_add_cred` performs its checks in the spec's order — name
length, secret length, touch firmware gate, counter applicability, SHA512
gate, overwrite confirmation, defect-window guard, store submission — the
first failing check determines the error, and on any failure (the user
declining the overwrite confirmation included) the stored credential set
is unchanged. -/
theorem add_cred_checks_in_order (session : OathSession)
    (data : CredentialData) (touch force confirmOverwrite : Bool)
    (putOutcome : PutOutcome) :
    _add_cred session data touch force confirmOverwrite putOutcome =
      validate_and_admit_spec session data touch force confirmOverwrite
        putOutcome ∧
    noMutationOnFailure session data touch force confirmOverwrite putOutcome =
      true := by
  constructor
  · by_cases hf : force <;>
      by_cases hs : sameIdExists session.creds data.cred_id = true <;>
        by_cases hc : confirmOverwrite <;>
          simp [_add_cred, validate_and_admit_spec, addCredSubmit, hf, hs, hc]
  · rcases hr : _add_cred session data touch force confirmOverwrite
        putOutcome with ⟨r, creds2⟩
    have h2 := add_cred_error_creds session data touch force confirmOverwrite
      putOutcome
    rw [hr] at h2
    cases r with
    | ok _ => simp [noMutationOnFailure, hr]
    | error e =>
      rcases h2 with h2 | h2
      · simp only at h2
        simp [noMutationOnFailure, hr, h2]
      · simp at h2

/-- Claim C7: a candidate name of 0 or 65 bytes fails with `InvalidName`;
a name of exactly 1 or exactly 64 bytes passes the name-length check
(whatever error a later check may raise, it is never `InvalidName`). -/
theorem add_cred_name_length_check (session : OathSession)
    (data : CredentialData) (touch force confirmOverwrite : Bool)
    (putOutcome : PutOutcome) :
    ((data.name.length = 0 ∨ data.name.length = 65) →
      (_add_cred session data touch force confirmOverwrite putOutcome).1 =
        Except.error AdmitError.InvalidName) ∧
    ((data.name.length = 1 ∨ data.name.length = 64) →
      (_add_cred session data touch force confirmOverwrite putOutcome).1 ≠
        Except.error AdmitError.InvalidName) := by
  constructor
  · rintro (h | h) <;> simp [_add_cred, h]
  · have hrun : (0 < data.name.length ∧ data.name.length ≤ 64) →
        (_add_cred session data touch force confirmOverwrite putOutcome).1 ≠
          Except.error AdmitError.InvalidName := by
      intro hname
      unfold _add_cred addCredSubmit
      rw [if_neg (not_not_intro hname)]
      repeat' split
      all_goals simp
    rintro (h | h) <;> exact hrun (by omega)

/-- A sample unlocked session on recent firmware with no credentials. -/
def sampleAdmitSession : OathSession where
  locked := false
  device_id := "dev2"
  version := (5, 2, 4)
  derive_key := fun p => p ++ "#k"
  validate := fun _ => Except.ok ()
  fips := false
  creds := []

/-- Witness for C7 at concrete inputs: the empty name is rejected with
`InvalidName`; a 1-byte name passes the name-length check. -/
theorem add_cred_name_length_check_witness :
    (_add_cred sampleAdmitSession
      ⟨[], OATH_TYPE.TOTP, HASH_ALGORITHM.SHA1, [1, 2], 0, "n0", false⟩
      false false false PutOutcome.success).1 =
        Except.error AdmitError.InvalidName ∧
    (_add_cred sampleAdmitSession
      ⟨[97], OATH_TYPE.TOTP, HASH_ALGORITHM.SHA1, [1, 2], 0, "n1", false⟩
      false false false PutOutcome.success).1 ≠
        Except.error AdmitError.InvalidName :=
  ⟨(add_cred_name_length_check sampleAdmitSession
      ⟨[], OATH_TYPE.TOTP, HASH_ALGORITHM.SHA1, [1, 2], 0, "n0", false⟩
      false false false PutOutcome.success).1 (Or.inl rfl),
   (add_cred_name_length_check sampleAdmitSession
      ⟨[97], OATH_TYPE.TOTP, HASH_ALGORITHM.SHA1, [1, 2], 0, "n1", false⟩
      false false false PutOutcome.success).2 (Or.inl rfl)⟩

/-- A session inside the defect window whose only credential has id "A". -/
def defectWindowSessionA : OathSession where
  locked := false
  device_id := "dev3"
  version := (4, 1, 0)
  derive_key := fun p => p
  validate := fun _ => Except.ok ()
  fips := false
  creds := [⟨"A", OATH_TYPE.TOTP, false, false⟩]

/-- A session inside the defect window whose only credential has id "AB". -/
def defectWindowSessionAB : OathSession where
  locked := false
  device_id := "dev4"
  version := (4, 1, 0)
  derive_key := fun p => p
  validate := fun _ => Except.ok ()
  fips := false
  creds := [⟨"AB", OATH_TYPE.TOTP, false, false⟩]

/-- A valid candidate whose store id is "AB". -/
def candAB : CredentialData :=
  ⟨[97], OATH_TYPE.TOTP, HASH_ALGORITHM.SHA1, [1, 2], 0, "AB", false⟩

/-- A valid candidate whose store id is "A". -/
def candA : CredentialData :=
  ⟨[97], OATH_TYPE.TOTP, HASH_ALGORITHM.SHA1, [1, 2], 0, "A", false⟩

/-- Counterexample to C1 as stated: on firmware (4, 1, 0) — inside the
defect window — with an existing credential id "A" (a strict prefix of the
candidate id "AB"), admission does NOT fail with `UnsafeOverwriteName`:
it succeeds and the candidate is submitted to the store.  The source's
guard tests the opposite direction (`cred.id.startswith(cred_id)`). -/
theorem add_cred_defect_guard_direction_cex :
    _add_cred defectWindowSessionA candAB false false false
        PutOutcome.success =
      (Except.ok (), [⟨"A", OATH_TYPE.TOTP, false, false⟩,
                      ⟨"AB", OATH_TYPE.TOTP, false, false⟩]) := by
  rfl

/-- Claim C1 (amended): for every session whose firmware version is
strictly between (4, 0, 0) and (4, 3, 5) and every candidate that passes
the earlier checks and the overwrite-confirmation step, if the CANDIDATE's
id is a strict prefix of some existing credential's id (the existing id
strictly extends it), `_add_cred` fails with `UnsafeOverwriteName` and the
store's credential set is unchanged. -/
theorem add_cred_defect_guard (session : OathSession) (data : CredentialData)
    (touch force confirmOverwrite : Bool) (putOutcome : PutOutcome)
    (hname : 0 < data.name.length ∧ data.name.length ≤ 64)
    (hsecret : ¬ data.secret.length < 2)
    (htouch : (touch && verLt session.version (4, 2, 6)) = false)
    (hcounter : ¬ (data.counter ≠ 0 ∧ data.oath_type ≠ OATH_TYPE.HOTP))
    (hsha : ¬ (data.hash_algorithm = HASH_ALGORITHM.SHA512 ∧
      (verLt session.version (4, 3, 1) = true ∨ session.fips = true)))
    (hwin : firmwareOverwriteIssue session.version = true)
    (hsub : credIsSubset session.creds data.cred_id = true)
    (hconfirm : (!force && sameIdExists session.creds data.cred_id) = false ∨
      confirmOverwrite = true) :
    _add_cred session data touch force confirmOverwrite putOutcome =
      (Except.error AdmitError.UnsafeOverwriteName, session.creds) := by
  rcases hconfirm with hc | hc <;>
    simp [_add_cred, addCredSubmit, hname.1, hname.2, hsecret, htouch,
      hcounter, hsha, hwin, hsub, hc]

/-- Witness for the amended C1: existing credential id "AB", candidate id
"A", firmware (4, 1, 0): admission fails with `UnsafeOverwriteName` and
the credential list is unchanged. -/
theorem add_cred_defect_guard_witness :
    _add_cred defectWindowSessionAB candA false false false
        PutOutcome.success =
      (Except.error AdmitError.UnsafeOverwriteName,
        [⟨"AB", OATH_TYPE.TOTP, false, false⟩]) :=
  add_cred_defect_guard defectWindowSessionAB candA false false false
    PutOutcome.success (by decide) (by decide) (by decide) (by decide)
    (by decide) (by decide) (by decide) (Or.inl (by decide))

/-! ## Single-match operations (`code --single` and `delete`) -/

/-- Caller-visible outcome of an operation that resolves a query. -/
inductive OpOutcome
  | proceeded
  | noMatch
  | multipleMatches (ids : List String)
  | deletionAborted
  deriving DecidableEq, Repr

/-- The hit-count dispatch of the `code` command with `--single`: one hit
proceeds to code generation; more than one aborts via
`_error_multiple_hits`, reporting every matched display identifier; zero
hits abort with "No matching credential found". -/
def codeSingleOutcome (creds : List Credential) (query : String)
    (show_hidden : Bool) : OpOutcome :=
  let hits := _search creds query show_hidden
  if hits.length = 1 then OpOutcome.proceeded
  else if 1 < hits.length then OpOutcome.multipleMatches (hits.map _string_id)
  else OpOutcome.noMatch

/-- The `delete` command: the query is resolved with `_search(creds,
query, True)` — hidden credentials always included.  Zero hits report "No
matches, nothing to be done"; one hit deletes after `force` or an
interactive confirmation (`confirmDelete`); several hits abort via
`_error_multiple_hits`.  Returns the outcome and the resulting stored
credentials. -/
def deleteOp (creds : List Credential) (query : String)
    (force confirmDelete : Bool) : OpOutcome × List Credential :=
  match _search creds query true with
  | [] => (OpOutcome.noMatch, creds)
  | [cred] =>
    if force || confirmDelete then
      (OpOutcome.proceeded, creds.filter (fun c => c.id != cred.id))
    else
      (OpOutcome.deletionAborted, creds)
  | hits => (OpOutcome.multipleMatches (hits.map _string_id), creds)

/-- Claim C9: when an operation requiring exactly one match gets more than
one hit, it aborts reporting the display identifiers of all matched
credentials and mutates nothing; with zero hits it aborts reporting that
no match was found (`delete` reports this and deletes nothing). -/
theorem single_match_policy (creds : List Credential) (query : String)
    (show_hidden force confirmDelete : Bool) :
    (1 < (_search creds query show_hidden).length →
      codeSingleOutcome creds query show_hidden =
        OpOutcome.multipleMatches
          ((_search creds query show_hidden).map _string_id)) ∧
    ((_search creds query show_hidden).length = 0 →
      codeSingleOutcome creds query show_hidden = OpOutcome.noMatch) ∧
    (1 < (_search creds query true).length →
      deleteOp creds query force confirmDelete =
        (OpOutcome.multipleMatches
          ((_search creds query true).map _string_id), creds)) ∧
    ((_search creds query true).length = 0 →
      deleteOp creds query force confirmDelete =
        (OpOutcome.noMatch, creds)) := by
  refine ⟨?_, ?_, ?_, ?_⟩
  · intro h
    have h1 : (_search creds query show_hidden).length ≠ 1 := by omega
    simp [codeSingleOutcome, h, h1]
  · intro h
    simp [codeSingleOutcome, h]
  · intro h
    rcases hs : _search creds query true with _ | ⟨c, _ | ⟨d, t⟩⟩
    · rw [hs] at h
      simp at h
    · rw [hs] at h
      simp at h
    · simp [deleteOp, hs]
  · intro h
    rcases hs : _search creds query true with _ | ⟨c, t⟩
    · simp [deleteOp, hs]
    · rw [hs] at h
      simp at h

/-- Witness for C9 at concrete inputs: two substring matches make both
operations abort with both identifiers and no deletion; a query matching
nothing yields the no-match outcomes. -/
theorem single_match_policy_witness :
    codeSingleOutcome [⟨"acc1", OATH_TYPE.TOTP, false, false⟩,
        ⟨"acc2", OATH_TYPE.TOTP, false, false⟩] "acc" false =
      OpOutcome.multipleMatches ["acc1", "acc2"] ∧
    codeSingleOutcome [⟨"acc1", OATH_TYPE.TOTP, false, false⟩,
        ⟨"acc2", OATH_TYPE.TOTP, false, false⟩] "zzz" false =
      OpOutcome.noMatch ∧
    deleteOp [⟨"acc1", OATH_TYPE.TOTP, false, false⟩,
        ⟨"acc2", OATH_TYPE.TOTP, false, false⟩] "acc" false false =
      (OpOutcome.multipleMatches ["acc1", "acc2"],
        [⟨"acc1", OATH_TYPE.TOTP, false, false⟩,
         ⟨"acc2", OATH_TYPE.TOTP, false, false⟩]) ∧
    deleteOp [⟨"acc1", OATH_TYPE.TOTP, false, false⟩,
        ⟨"acc2", OATH_TYPE.TOTP, false, false⟩] "zzz" false false =
      (OpOutcome.noMatch,
        [⟨"acc1", OATH_TYPE.TOTP, false, false⟩,
         ⟨"acc2", OATH_TYPE.TOTP, false, false⟩]) := by
  refine ⟨?_, ?_, ?_, ?_⟩
  · exact ((single_match_policy [⟨"acc1", OATH_TYPE.TOTP, false, false⟩,
      ⟨"acc2", OATH_TYPE.TOTP, false, false⟩] "acc" false false false).1
      (by decide)).trans (by decide)
  · exact (single_match_policy [⟨"acc1", OATH_TYPE.TOTP, false, false⟩,
      ⟨"acc2", OATH_TYPE.TOTP, false, false⟩] "zzz" false false false).2.1
      (by decide)
  · exact ((single_match_policy [⟨"acc1", OATH_TYPE.TOTP, false, false⟩,
      ⟨"acc2", OATH_TYPE.TOTP, false, false⟩] "acc" false false false).2.2.1
      (by decide)).trans (by decide)
  · exact (single_match_policy [⟨"acc1", OATH_TYPE.TOTP, false, false⟩,
      ⟨"acc2", OATH_TYPE.TOTP, false, false⟩] "zzz" false false false).2.2.2
      (by decide)

/-- Claim C10: `delete` resolves its query with hidden credentials always
included (its search runs with `show_hidden` fixed to `true`), so a hidden
credential whose display identifier equals the query is selected and — with
`force` — deleted, no show-hidden option involved. -/
theorem delete_reaches_hidden (creds : List Credential) (query : String)
    (confirmDelete : Bool) (c : Credential) (hmem : c ∈ creds)
    (hh : is_hidden c = true) (heq : _string_id c = query)
    (huniq : ∀ x ∈ creds, _string_id x = query → x = c) :
    deleteOp creds query true confirmDelete =
      (OpOutcome.proceeded, creds.filter (fun x => x.id != c.id)) := by
  have hs : _search creds query true = [c] :=
    searchLoop_exact query creds c hmem heq huniq []
  simp [deleteOp, hs]

/-- Witness for C10: a hidden credential exactly matching the query is
deleted by `delete` with no show-hidden option. -/
theorem delete_reaches_hidden_witness :
    deleteOp [⟨"sneaky", OATH_TYPE.TOTP, false, true⟩,
        ⟨"plain", OATH_TYPE.TOTP, false, false⟩] "sneaky" true false =
      (OpOutcome.proceeded, [⟨"plain", OATH_TYPE.TOTP, false, false⟩]) :=
  (delete_reaches_hidden
    [⟨"sneaky", OATH_TYPE.TOTP, false, true⟩,
     ⟨"plain", OATH_TYPE.TOTP, false, false⟩] "sneaky" false
    ⟨"sneaky", OATH_TYPE.TOTP, false, true⟩
    (by decide) (by decide) (by decide) (by decide)).trans (by decide)

end Ykman
